import Mathlib

/-!
Shallow embedding of `src/ogc/weighting_functions.py`
(`WeightingFunctionsProcessor`) from the aquainfra-usecase-elbe repository.

The processor reads a JSON configuration, validates three required inputs of a
job request, builds output paths and URLs, delegates to an external container
invoker (`docker_utils.run_docker_container`, an opaque collaborator, modelled
as an oracle function), and either raises an error or returns a response with
two download links.  File-system directory creation (`os.makedirs`) and the
single container invocation are recorded in an explicit trace.
-/

/-- String occurrence test, needle-leads variant: `leadsIn n h` is true when
`h` starts with `n` (character lists). -/
def leadsIn : List Char → List Char → Bool
  | [], _ => true
  | _ :: _, [] => false
  | c :: cs, d :: ds => c == d && leadsIn cs ds

/-- `occursInB n h` is true when `n` occurs as a contiguous segment of `h`. -/
def occursInB (needle : List Char) : List Char → Bool
  | [] => needle.isEmpty
  | d :: ds => leadsIn needle (d :: ds) || occursInB needle ds

/-- Substring occurrence on strings. -/
def strOccurs (needle hay : String) : Bool :=
  occursInB needle.toList hay.toList

/-- Python's `s.rstrip('/')`: remove every trailing `'/'` character. -/
def rstripSlash (s : String) : String :=
  ((s.toList.reverse.dropWhile (fun c => c == '/')).reverse).asString

/-- Whether a string's last character is `'/'`. -/
def lastIsSlash (s : String) : Bool :=
  match s.toList.reverse.head? with
  | some c => c == '/'
  | none => false

/-- Parsed configuration file content (`config.json`); the three fields the
processor consumes. -/
structure ConfigJSON where
  docker_executable : String
  download_dir : String
  download_url : String
deriving Repr, DecidableEq

/-- Title and description of one output in the static process metadata. -/
structure OutputMeta where
  title : String
  description : String
deriving Repr, DecidableEq

/-- The slice of `PROCESS_METADATA` the processor reads: the process id and the
metadata of the two outputs. -/
structure ProcessMetadata where
  id : String
  weight_table_csv_meta : OutputMeta
  weight_table_rds_meta : OutputMeta
deriving Repr, DecidableEq

/-- Processor state set up by `__init__` (and mutated by `set_job_id`). -/
structure Processor where
  process_id : String
  my_job_id : String
  image_name : String
  script_name : String
  metadata : ProcessMetadata
  supports_outputs : Bool
deriving Repr, DecidableEq

/-- `WeightingFunctionsProcessor.__init__`: fixed image and script names,
process id taken from the metadata, job id still the sentinel placeholder. -/
def mkProcessor (metadata : ProcessMetadata) : Processor :=
  { process_id := metadata.id
    my_job_id := "nothing-yet"
    image_name := "aquainfra-elbe-usecase-image:20251201"
    script_name := "weighting_functions.R"
    metadata := metadata
    supports_outputs := true }

/-- `WeightingFunctionsProcessor.set_job_id`. -/
def set_job_id (p : Processor) (job_id : String) : Processor :=
  { p with my_job_id := job_id }

/-- A job request: the three keys `execute` reads via `data.get(...)`; `none`
models an absent key as well as an explicit `null` value. -/
structure JobRequest where
  inputFile1_tif : Option String
  inputFile2_gpkg : Option String
  inputFile3_dbf : Option String
deriving Repr, DecidableEq

/-- The required input keys, in the order the source validates them. -/
def requiredFields : List String :=
  ["inputFile1_tif", "inputFile2_gpkg", "inputFile3_dbf"]

/-- `data.get(fld)` for the three required keys. -/
def requestField (data : JobRequest) (fld : String) : Option String :=
  if fld = "inputFile1_tif" then data.inputFile1_tif
  else if fld = "inputFile2_gpkg" then data.inputFile2_gpkg
  else if fld = "inputFile3_dbf" then data.inputFile3_dbf
  else none

/-- One call to `docker_utils.run_docker_container`, with its arguments in
positional order. -/
structure DockerCall where
  executable : String
  image_name : String
  script_name : String
  output_dir : String
  script_args : List String
deriving Repr, DecidableEq

/-- The tuple returned by the container invoker:
`(returncode, stdout, stderr, user_err_msg)`. -/
structure DockerResult where
  returncode : Int
  stdout : String
  stderr : String
  user_err_msg : String
deriving Repr, DecidableEq

/-- One entry of the success response's `outputs` mapping. -/
structure OutputEntry where
  title : String
  description : String
  href : String
deriving Repr, DecidableEq

/-- The success response object: the `outputs` mapping as an ordered
association list, exactly as the dict literal in the source builds it. -/
structure ResponseObject where
  outputs : List (String × OutputEntry)
deriving Repr, DecidableEq

/-- What one call of `execute` terminates with: a `ProcessorExecuteError`
raised during input validation, a `ProcessorExecuteError` raised after a
non-zero container exit, or the `(mimetype, response_object)` return value. -/
inductive ExecuteOutcome where
  | validationError (user_msg : String)
  | executionError (user_msg : String)
  | success (mediaType : String) (response : ResponseObject)
deriving Repr, DecidableEq

/-- Observable trace of one `execute` call: the directories created with
`os.makedirs`, the stripped configuration values stored on `self`, the
container invocation (if any), and the outcome. -/
structure ExecTrace where
  madeDirs : List String
  download_dir_used : String
  download_url_used : String
  dockerCall : Option DockerCall
  result : ExecuteOutcome
deriving Repr, DecidableEq

/-- `output_dir` as line 41 of the source computes it. -/
def output_dir_for (download_dir process_id job_id : String) : String :=
  download_dir ++ "/out/" ++ process_id ++ "/job_" ++ job_id

/-- `output_url` as line 42 of the source computes it. -/
def output_url_for (download_url process_id job_id : String) : String :=
  download_url ++ "/out/" ++ process_id ++ "/job_" ++ job_id

/-- Flat form of a download link
`{base}/out/{process_id}/job_{job_id}/weight_table-{job_id}{ext}`. -/
def weight_table_url (base process_id job_id ext : String) : String :=
  base ++ "/out/" ++ process_id ++ "/job_" ++ job_id ++ "/weight_table-" ++
    job_id ++ ext

/-- `WeightingFunctionsProcessor.execute`, embedded over a parsed
configuration and an oracle `invoker` standing for the opaque
`docker_utils.run_docker_container` collaborator.  The control flow follows
the source line by line: strip config values, compute `output_dir` and
`output_url`, create the output directory, read the three inputs, validate
them in source order, build filenames, paths and links, assemble the
positional argument list, invoke the container, and branch on the exit
code. -/
def execute (p : Processor) (cfg : ConfigJSON) (invoker : DockerCall → DockerResult)
    (data : JobRequest) (outputs : Option (List String)) : ExecTrace :=
  let docker_executable := cfg.docker_executable
  let download_dir := rstripSlash cfg.download_dir
  let download_url := rstripSlash cfg.download_url
  let output_dir := output_dir_for download_dir p.process_id p.my_job_id
  let output_url := output_url_for download_url p.process_id p.my_job_id
  match data.inputFile1_tif, data.inputFile2_gpkg, data.inputFile3_dbf with
  | none, _, _ =>
      ⟨[output_dir], download_dir, download_url, none,
        .validationError
          "Missing parameter \"inputFile1_tif\". Please provide a inputFile1_tif."⟩
  | some _, none, _ =>
      ⟨[output_dir], download_dir, download_url, none,
        .validationError
          "Missing parameter \"inputFile2_gpkg\". Please provide a inputFile2_gpkg."⟩
  | some _, some _, none =>
      ⟨[output_dir], download_dir, download_url, none,
        .validationError
          "Missing parameter \"inputFile3_dbf\". Please provide a inputFile3_dbf."⟩
  | some in_inputFile_tif, some in_inputFile_gpkg, some in_inputFile_dbf =>
      let downloadfilename1 := "weight_table-" ++ p.my_job_id ++ ".csv"
      let downloadfilename2 := "weight_table-" ++ p.my_job_id ++ ".rds"
      let downloadfilepath1 := output_dir ++ "/" ++ downloadfilename1
      let downloadfilepath2 := output_dir ++ "/" ++ downloadfilename2
      let downloadlink1 := output_url ++ "/" ++ downloadfilename1
      let downloadlink2 := output_url ++ "/" ++ downloadfilename2
      let script_args := [in_inputFile_tif, in_inputFile_gpkg, in_inputFile_dbf,
        downloadfilepath1, downloadfilepath2]
      let call : DockerCall :=
        ⟨docker_executable, p.image_name, p.script_name, output_dir, script_args⟩
      let res := invoker call
      if res.returncode ≠ 0 then
        let user_err_msg :=
          if res.user_err_msg.length = 0 then "no message" else res.user_err_msg
        ⟨[output_dir], download_dir, download_url, some call,
          .executionError ("Running docker container failed: " ++ user_err_msg)⟩
      else
        let response_object : ResponseObject :=
          ⟨[("weight_table_csv",
              ⟨p.metadata.weight_table_csv_meta.title,
               p.metadata.weight_table_csv_meta.description, downloadlink1⟩),
            ("weight_table_rds",
              ⟨p.metadata.weight_table_rds_meta.title,
               p.metadata.weight_table_rds_meta.description, downloadlink2⟩)]⟩
        ⟨[output_dir], download_dir, download_url, some call,
          .success "application/json" response_object⟩

/-- The keys of the `outputs` mapping of a successful result, `none`
otherwise. -/
def responseKeys (t : ExecTrace) : Option (List String) :=
  match t.result with
  | .success _ r => some (r.outputs.map Prod.fst)
  | _ => none

/-- The container invocation `execute` performs for a well-formed request
with inputs `t`, `g`, `d`: the same tuple the source passes to
`docker_utils.run_docker_container`. -/
def plannedCall (p : Processor) (cfg : ConfigJSON) (t g d : String) : DockerCall :=
  ⟨cfg.docker_executable, p.image_name, p.script_name,
    output_dir_for (rstripSlash cfg.download_dir) p.process_id p.my_job_id,
    [t, g, d,
      output_dir_for (rstripSlash cfg.download_dir) p.process_id p.my_job_id ++
        "/" ++ ("weight_table-" ++ p.my_job_id ++ ".csv"),
      output_dir_for (rstripSlash cfg.download_dir) p.process_id p.my_job_id ++
        "/" ++ ("weight_table-" ++ p.my_job_id ++ ".rds")]⟩

/-- Sample metadata for concrete instantiations. -/
def sampleMeta : ProcessMetadata :=
  ⟨"weighting-functions", ⟨"CSV weight table", "Weights as csv"⟩,
    ⟨"RDS weight table", "Weights as rds"⟩⟩

/-- Sample parsed configuration (with trailing slashes to exercise the
stripping). -/
def sampleCfg : ConfigJSON :=
  ⟨"/usr/bin/docker", "/data/", "https://x/files/"⟩

/-- Sample processor after construction and one job-id assignment. -/
def sampleProcessor : Processor :=
  set_job_id (mkProcessor sampleMeta) "42"

/-- Oracle invoker that always succeeds. -/
def sampleInvokerOk : DockerCall → DockerResult :=
  fun _ => ⟨0, "", "", ""⟩

/-- Oracle invoker that fails with an empty diagnostic string. -/
def sampleInvokerFailEmpty : DockerCall → DockerResult :=
  fun _ => ⟨1, "out", "err", ""⟩

/-- Oracle invoker that fails with a non-empty diagnostic string. -/
def sampleInvokerFailMsg : DockerCall → DockerResult :=
  fun _ => ⟨1, "out", "err", "R script crashed"⟩

/-- Sample well-formed request. -/
def sampleReqOk : JobRequest :=
  ⟨some "a.tif", some "b.gpkg", some "c.dbf"⟩

/-- Sample request with the tif input missing. -/
def sampleReqNoTif : JobRequest :=
  ⟨none, some "b.gpkg", some "c.dbf"⟩

/-- Sample request with two inputs missing. -/
def sampleReqNoTifNoGpkg : JobRequest :=
  ⟨none, none, some "c.dbf"⟩

/-! ### Helper lemmas -/

theorem leadsIn_self_append (n b : List Char) : leadsIn n (n ++ b) = true := by
  induction n with
  | nil => rfl
  | cons c cs ih => simp [leadsIn, ih]

theorem occursInB_nil_needle (h : List Char) : occursInB [] h = true := by
  cases h with
  | nil => rfl
  | cons d ds => simp [occursInB, leadsIn]

theorem occursInB_sandwich (a n b : List Char) : occursInB n (a ++ (n ++ b)) = true := by
  induction a with
  | nil =>
    cases hn : n with
    | nil => simpa using occursInB_nil_needle b
    | cons c cs =>
      have h1 := leadsIn_self_append (c :: cs) b
      rw [List.cons_append] at h1
      simp [occursInB, List.append_eq, h1]
  | cons x xs ih => simp [occursInB, ih]

theorem strOccurs_append (pre s : String) : strOccurs s (pre ++ s) = true := by
  have h : (pre ++ s).toList = pre.toList ++ (s.toList ++ []) := by
    simp [String.toList, String.data_append]
  simp only [strOccurs, h]
  exact occursInB_sandwich _ _ _

theorem head_dropWhile_false (p : Char → Bool) (l : List Char) (c : Char)
    (h : (l.dropWhile p).head? = some c) : p c = false := by
  induction l with
  | nil => simp [List.dropWhile] at h
  | cons x xs ih =>
    rw [List.dropWhile_cons] at h
    by_cases hx : p x
    · simp [hx] at h
      exact ih h
    · simp [hx] at h
      subst h
      simpa using hx

theorem lastIsSlash_rstripSlash (s : String) : lastIsSlash (rstripSlash s) = false := by
  unfold lastIsSlash rstripSlash
  have hl : (((s.toList.reverse.dropWhile (fun c => c == '/')).reverse).asString).toList
      = (s.toList.reverse.dropWhile (fun c => c == '/')).reverse := rfl
  rw [hl, List.reverse_reverse]
  cases hh : (s.toList.reverse.dropWhile (fun c => c == '/')).head? with
  | none => rfl
  | some c =>
    have hc := head_dropWhile_false _ _ _ hh
    simpa using hc

theorem string_length_zero {s : String} (h : s.length = 0) : s = "" := by
  cases s with
  | mk data =>
    cases data with
    | nil => rfl
    | cons c cs => simp [String.length] at h

theorem execute_trace_base (p : Processor) (cfg : ConfigJSON)
    (invoker : DockerCall → DockerResult) (data : JobRequest)
    (outputs : Option (List String)) :
    (execute p cfg invoker data outputs).download_dir_used = rstripSlash cfg.download_dir ∧
    (execute p cfg invoker data outputs).download_url_used = rstripSlash cfg.download_url ∧
    (execute p cfg invoker data outputs).madeDirs =
      [output_dir_for (rstripSlash cfg.download_dir) p.process_id p.my_job_id] := by
  cases h1 : data.inputFile1_tif with
  | none => simp [execute, h1]
  | some t =>
    cases h2 : data.inputFile2_gpkg with
    | none => simp [execute, h1, h2]
    | some g =>
      cases h3 : data.inputFile3_dbf with
      | none => simp [execute, h1, h2, h3]
      | some d =>
        simp only [execute, h1, h2, h3]
        split <;> simp

/-! ### Claim theorems -/

/-- Claim C1: for every job request in which one of the three required keys
`inputFile1_tif`, `inputFile2_gpkg`, `inputFile3_dbf` is absent or null,
`execute` raises a validation error (`ProcessorExecuteError`) whose message
names exactly that missing field (it mentions the reported missing field and
no other required field), and the container invoker is never called. -/
theorem C1_missing_input_validation (p : Processor) (cfg : ConfigJSON)
    (invoker : DockerCall → DockerResult) (data : JobRequest)
    (outputs : Option (List String))
    (h : data.inputFile1_tif = none ∨ data.inputFile2_gpkg = none ∨
      data.inputFile3_dbf = none) :
    ∃ msg, (execute p cfg invoker data outputs).result =
        ExecuteOutcome.validationError msg ∧
      (execute p cfg invoker data outputs).dockerCall = none ∧
      ∃ fld, requiredFields.contains fld = true ∧ requestField data fld = none ∧
        strOccurs fld msg = true ∧
        requiredFields.all (fun f2 => f2 == fld || !(strOccurs f2 msg)) = true := by
  cases h1 : data.inputFile1_tif with
  | none =>
    exact ⟨"Missing parameter \"inputFile1_tif\". Please provide a inputFile1_tif.",
      by simp [execute, h1], by simp [execute, h1],
      "inputFile1_tif", by decide, by simp [requestField, h1], by decide, by decide⟩
  | some t =>
    cases h2 : data.inputFile2_gpkg with
    | none =>
      exact ⟨"Missing parameter \"inputFile2_gpkg\". Please provide a inputFile2_gpkg.",
        by simp [execute, h1, h2], by simp [execute, h1, h2],
        "inputFile2_gpkg", by decide, by simp [requestField, h2], by decide, by decide⟩
    | some g =>
      cases h3 : data.inputFile3_dbf with
      | none =>
        exact ⟨"Missing parameter \"inputFile3_dbf\". Please provide a inputFile3_dbf.",
          by simp [execute, h1, h2, h3], by simp [execute, h1, h2, h3],
          "inputFile3_dbf", by decide, by simp [requestField, h3], by decide, by decide⟩
      | some d =>
        rw [h1, h2, h3] at h
        rcases h with h | h | h <;> exact absurd h (by simp)

/-- Witness for C1 at a concrete request with `inputFile1_tif` missing. -/
theorem C1_missing_input_validation_witness :
    ∃ msg, (execute sampleProcessor sampleCfg sampleInvokerOk sampleReqNoTif none).result =
        ExecuteOutcome.validationError msg ∧
      (execute sampleProcessor sampleCfg sampleInvokerOk sampleReqNoTif none).dockerCall = none ∧
      ∃ fld, requiredFields.contains fld = true ∧
        requestField sampleReqNoTif fld = none ∧
        strOccurs fld msg = true ∧
        requiredFields.all (fun f2 => f2 == fld || !(strOccurs f2 msg)) = true :=
  C1_missing_input_validation sampleProcessor sampleCfg sampleInvokerOk
    sampleReqNoTif none (Or.inl rfl)

/-- Claim C2: for every well-formed request, the argument list passed to the
container invoker is exactly `[tif, gpkg, dbf, csv output path, rds output
path]`, in that order, with no other elements (and the other invocation
arguments are the executable, the fixed image and script names, and the
output directory). -/
theorem C2_invoker_argument_list (p : Processor) (cfg : ConfigJSON)
    (invoker : DockerCall → DockerResult) (data : JobRequest)
    (outputs : Option (List String)) (t g d : String)
    (h1 : data.inputFile1_tif = some t) (h2 : data.inputFile2_gpkg = some g)
    (h3 : data.inputFile3_dbf = some d) :
    (execute p cfg invoker data outputs).dockerCall = some
      ⟨cfg.docker_executable, p.image_name, p.script_name,
        output_dir_for (rstripSlash cfg.download_dir) p.process_id p.my_job_id,
        [t, g, d,
          output_dir_for (rstripSlash cfg.download_dir) p.process_id p.my_job_id ++
            "/" ++ ("weight_table-" ++ p.my_job_id ++ ".csv"),
          output_dir_for (rstripSlash cfg.download_dir) p.process_id p.my_job_id ++
            "/" ++ ("weight_table-" ++ p.my_job_id ++ ".rds")]⟩ := by
  simp only [execute, h1, h2, h3]
  split <;> rfl

/-- Witness for C2 at a concrete well-formed request. -/
theorem C2_invoker_argument_list_witness :
    (execute sampleProcessor sampleCfg sampleInvokerOk sampleReqOk none).dockerCall = some
      ⟨sampleCfg.docker_executable, sampleProcessor.image_name,
        sampleProcessor.script_name,
        output_dir_for (rstripSlash sampleCfg.download_dir)
          sampleProcessor.process_id sampleProcessor.my_job_id,
        ["a.tif", "b.gpkg", "c.dbf",
          output_dir_for (rstripSlash sampleCfg.download_dir)
            sampleProcessor.process_id sampleProcessor.my_job_id ++ "/" ++
            ("weight_table-" ++ sampleProcessor.my_job_id ++ ".csv"),
          output_dir_for (rstripSlash sampleCfg.download_dir)
            sampleProcessor.process_id sampleProcessor.my_job_id ++ "/" ++
            ("weight_table-" ++ sampleProcessor.my_job_id ++ ".rds")]⟩ :=
  C2_invoker_argument_list sampleProcessor sampleCfg sampleInvokerOk sampleReqOk
    none "a.tif" "b.gpkg" "c.dbf" rfl rfl rfl

/-- Claim C3: for every well-formed request, if the container invoker returns
exit code 0 then `execute` returns media type `application/json` together
with a response whose `outputs` mapping contains exactly the two entries
`weight_table_csv` and `weight_table_rds`, each carrying the title and
description from the static process metadata and an href equal to the
corresponding precomputed download URL
`{download_url}/out/{process_id}/job_{job_id}/weight_table-{job_id}.csv`
and `.rds`. -/
theorem C3_success_response (p : Processor) (cfg : ConfigJSON)
    (invoker : DockerCall → DockerResult) (data : JobRequest)
    (outputs : Option (List String)) (t g d : String)
    (h1 : data.inputFile1_tif = some t) (h2 : data.inputFile2_gpkg = some g)
    (h3 : data.inputFile3_dbf = some d)
    (h0 : (invoker (plannedCall p cfg t g d)).returncode = 0) :
    (execute p cfg invoker data outputs).result =
      ExecuteOutcome.success "application/json"
        ⟨[("weight_table_csv",
            ⟨p.metadata.weight_table_csv_meta.title,
             p.metadata.weight_table_csv_meta.description,
             weight_table_url (rstripSlash cfg.download_url) p.process_id
               p.my_job_id ".csv"⟩),
          ("weight_table_rds",
            ⟨p.metadata.weight_table_rds_meta.title,
             p.metadata.weight_table_rds_meta.description,
             weight_table_url (rstripSlash cfg.download_url) p.process_id
               p.my_job_id ".rds"⟩)]⟩ := by
  rw [plannedCall] at h0
  simp only [output_dir_for, String.append_assoc] at h0
  simp only [execute, h1, h2, h3, output_dir_for, output_url_for, weight_table_url,
    String.append_assoc, h0, ne_eq, not_true_eq_false, reduceIte]
  rfl

/-- Witness for C3 at a concrete well-formed request with a succeeding
invoker. -/
theorem C3_success_response_witness :
    (execute sampleProcessor sampleCfg sampleInvokerOk sampleReqOk none).result =
      ExecuteOutcome.success "application/json"
        ⟨[("weight_table_csv",
            ⟨sampleProcessor.metadata.weight_table_csv_meta.title,
             sampleProcessor.metadata.weight_table_csv_meta.description,
             weight_table_url (rstripSlash sampleCfg.download_url)
               sampleProcessor.process_id sampleProcessor.my_job_id ".csv"⟩),
          ("weight_table_rds",
            ⟨sampleProcessor.metadata.weight_table_rds_meta.title,
             sampleProcessor.metadata.weight_table_rds_meta.description,
             weight_table_url (rstripSlash sampleCfg.download_url)
               sampleProcessor.process_id sampleProcessor.my_job_id ".rds"⟩)]⟩ :=
  C3_success_response sampleProcessor sampleCfg sampleInvokerOk sampleReqOk
    none "a.tif" "b.gpkg" "c.dbf" rfl rfl rfl rfl

/-- Characterization of the outcome of `execute` on a well-formed request:
an execution error exactly when the invoker's exit code is non-zero,
otherwise the success response. -/
theorem execute_result_wellformed (p : Processor) (cfg : ConfigJSON)
    (invoker : DockerCall → DockerResult) (data : JobRequest)
    (outputs : Option (List String)) (t g d : String)
    (h1 : data.inputFile1_tif = some t) (h2 : data.inputFile2_gpkg = some g)
    (h3 : data.inputFile3_dbf = some d) :
    (execute p cfg invoker data outputs).result =
      if (invoker (plannedCall p cfg t g d)).returncode ≠ 0 then
        ExecuteOutcome.executionError
          ("Running docker container failed: " ++
            (if (invoker (plannedCall p cfg t g d)).user_err_msg.length = 0
             then "no message"
             else (invoker (plannedCall p cfg t g d)).user_err_msg))
      else
        ExecuteOutcome.success "application/json"
          ⟨[("weight_table_csv",
              ⟨p.metadata.weight_table_csv_meta.title,
               p.metadata.weight_table_csv_meta.description,
               weight_table_url (rstripSlash cfg.download_url) p.process_id
                 p.my_job_id ".csv"⟩),
            ("weight_table_rds",
              ⟨p.metadata.weight_table_rds_meta.title,
               p.metadata.weight_table_rds_meta.description,
               weight_table_url (rstripSlash cfg.download_url) p.process_id
                 p.my_job_id ".rds"⟩)]⟩ := by
  simp only [execute, h1, h2, h3, plannedCall, output_dir_for, output_url_for,
    weight_table_url, String.append_assoc]
  split <;> rfl

/-- Claim C4: for every well-formed request, `execute` raises an execution
error if and only if the container invoker returns a non-zero exit code; in
that case, if the invoker's user-facing error string is empty, the raised
message contains the literal placeholder "no message", and if it is
non-empty, the raised message contains that string verbatim. -/
theorem C4_execution_error_iff_nonzero (p : Processor) (cfg : ConfigJSON)
    (invoker : DockerCall → DockerResult) (data : JobRequest)
    (outputs : Option (List String)) (t g d : String)
    (h1 : data.inputFile1_tif = some t) (h2 : data.inputFile2_gpkg = some g)
    (h3 : data.inputFile3_dbf = some d) :
    ((∃ m, (execute p cfg invoker data outputs).result =
        ExecuteOutcome.executionError m) ↔
      (invoker (plannedCall p cfg t g d)).returncode ≠ 0) ∧
    (∀ m, (execute p cfg invoker data outputs).result =
        ExecuteOutcome.executionError m →
      ((invoker (plannedCall p cfg t g d)).user_err_msg = "" →
        strOccurs "no message" m = true) ∧
      ((invoker (plannedCall p cfg t g d)).user_err_msg ≠ "" →
        strOccurs (invoker (plannedCall p cfg t g d)).user_err_msg m = true)) := by
  have hres := execute_result_wellformed p cfg invoker data outputs t g d h1 h2 h3
  by_cases h0 : (invoker (plannedCall p cfg t g d)).returncode = 0
  · rw [if_neg (by simp [h0])] at hres
    refine ⟨⟨fun hex => ?_, fun hne => absurd h0 hne⟩, fun m hm => ?_⟩
    · obtain ⟨m, hm⟩ := hex
      rw [hres] at hm
      exact absurd hm (by simp)
    · rw [hres] at hm
      exact absurd hm (by simp)
  · rw [if_pos h0] at hres
    refine ⟨⟨fun _ => h0, fun _ => ⟨_, hres⟩⟩, fun m hm => ?_⟩
    rw [hres] at hm
    have hm2 := (ExecuteOutcome.executionError.injEq _ _).mp hm
    subst hm2
    constructor
    · intro he
      simp only [he, String.length, List.length_nil, reduceIte]
      exact strOccurs_append _ _
    · intro he
      have hlen : ¬((invoker (plannedCall p cfg t g d)).user_err_msg.length = 0) := by
        intro hz
        exact he (string_length_zero hz)
      rw [if_neg hlen]
      exact strOccurs_append _ _

/-- Witness for C4 at a concrete well-formed request with a failing invoker
that reports a non-empty diagnostic. -/
theorem C4_execution_error_iff_nonzero_witness :
    ((∃ m, (execute sampleProcessor sampleCfg sampleInvokerFailMsg sampleReqOk none).result =
        ExecuteOutcome.executionError m) ↔
      (sampleInvokerFailMsg
        (plannedCall sampleProcessor sampleCfg "a.tif" "b.gpkg" "c.dbf")).returncode ≠ 0) ∧
    (∀ m, (execute sampleProcessor sampleCfg sampleInvokerFailMsg sampleReqOk none).result =
        ExecuteOutcome.executionError m →
      ((sampleInvokerFailMsg
          (plannedCall sampleProcessor sampleCfg "a.tif" "b.gpkg" "c.dbf")).user_err_msg = "" →
        strOccurs "no message" m = true) ∧
      ((sampleInvokerFailMsg
          (plannedCall sampleProcessor sampleCfg "a.tif" "b.gpkg" "c.dbf")).user_err_msg ≠ "" →
        strOccurs (sampleInvokerFailMsg
          (plannedCall sampleProcessor sampleCfg "a.tif" "b.gpkg" "c.dbf")).user_err_msg m = true)) :=
  C4_execution_error_iff_nonzero sampleProcessor sampleCfg sampleInvokerFailMsg
    sampleReqOk none "a.tif" "b.gpkg" "c.dbf" rfl rfl rfl

/-- Claim C5: output directory, file paths and URLs are deterministic
functions of `(download_dir or download_url, process_id, job_id)`: the
computed directories depend on nothing else, and for download_dir `/data`,
download_url `https://x/files` and job id `42` the output directory is
`/data/out/<process_id>/job_42` and the csv link is
`https://x/files/out/<process_id>/job_42/weight_table-42.csv`. -/
theorem C5_deterministic_paths (m : ProcessMetadata) (de : String)
    (invoker : DockerCall → DockerResult)
    (h0 : ∀ c, (invoker c).returncode = 0) :
    output_dir_for "/data" m.id "42" = "/data/out/" ++ m.id ++ "/job_42" ∧
    (∀ (p : Processor) (cfg1 cfg2 : ConfigJSON)
        (inv1 inv2 : DockerCall → DockerResult) (data1 data2 : JobRequest)
        (o1 o2 : Option (List String)),
      cfg1.download_dir = cfg2.download_dir →
      (execute p cfg1 inv1 data1 o1).madeDirs = (execute p cfg2 inv2 data2 o2).madeDirs) ∧
    (execute (set_job_id (mkProcessor m) "42") ⟨de, "/data", "https://x/files"⟩
        invoker sampleReqOk none).madeDirs = ["/data/out/" ++ m.id ++ "/job_42"] ∧
    (execute (set_job_id (mkProcessor m) "42") ⟨de, "/data", "https://x/files"⟩
        invoker sampleReqOk none).result =
      ExecuteOutcome.success "application/json"
        ⟨[("weight_table_csv",
            ⟨m.weight_table_csv_meta.title, m.weight_table_csv_meta.description,
             "https://x/files/out/" ++ m.id ++ "/job_42/weight_table-42.csv"⟩),
          ("weight_table_rds",
            ⟨m.weight_table_rds_meta.title, m.weight_table_rds_meta.description,
             "https://x/files/out/" ++ m.id ++ "/job_42/weight_table-42.rds"⟩)]⟩ := by
  refine ⟨?_, ?_, ?_, ?_⟩
  · simp only [output_dir_for, String.append_assoc]
    rfl
  · intro p cfg1 cfg2 inv1 inv2 data1 data2 o1 o2 hdd
    obtain ⟨-, -, hm1⟩ := execute_trace_base p cfg1 inv1 data1 o1
    obtain ⟨-, -, hm2⟩ := execute_trace_base p cfg2 inv2 data2 o2
    rw [hm1, hm2, hdd]
  · obtain ⟨-, -, hm⟩ := execute_trace_base (set_job_id (mkProcessor m) "42")
      ⟨de, "/data", "https://x/files"⟩ invoker sampleReqOk none
    rw [hm]
    simp only [set_job_id, mkProcessor, output_dir_for, String.append_assoc]
    rfl
  · simp only [execute, sampleReqOk, set_job_id, mkProcessor, output_dir_for,
      output_url_for, String.append_assoc, h0, ne_eq, not_true_eq_false, reduceIte]
    rfl

/-- Witness for C5 at concrete metadata and an always-succeeding invoker. -/
theorem C5_deterministic_paths_witness :
    output_dir_for "/data" sampleMeta.id "42" = "/data/out/" ++ sampleMeta.id ++ "/job_42" ∧
    (∀ (p : Processor) (cfg1 cfg2 : ConfigJSON)
        (inv1 inv2 : DockerCall → DockerResult) (data1 data2 : JobRequest)
        (o1 o2 : Option (List String)),
      cfg1.download_dir = cfg2.download_dir →
      (execute p cfg1 inv1 data1 o1).madeDirs = (execute p cfg2 inv2 data2 o2).madeDirs) ∧
    (execute (set_job_id (mkProcessor sampleMeta) "42") ⟨"docker", "/data", "https://x/files"⟩
        sampleInvokerOk sampleReqOk none).madeDirs = ["/data/out/" ++ sampleMeta.id ++ "/job_42"] ∧
    (execute (set_job_id (mkProcessor sampleMeta) "42") ⟨"docker", "/data", "https://x/files"⟩
        sampleInvokerOk sampleReqOk none).result =
      ExecuteOutcome.success "application/json"
        ⟨[("weight_table_csv",
            ⟨sampleMeta.weight_table_csv_meta.title, sampleMeta.weight_table_csv_meta.description,
             "https://x/files/out/" ++ sampleMeta.id ++ "/job_42/weight_table-42.csv"⟩),
          ("weight_table_rds",
            ⟨sampleMeta.weight_table_rds_meta.title, sampleMeta.weight_table_rds_meta.description,
             "https://x/files/out/" ++ sampleMeta.id ++ "/job_42/weight_table-42.rds"⟩)]⟩ :=
  C5_deterministic_paths sampleMeta "docker" sampleInvokerOk (fun _ => rfl)

/-- Counterexample to claim C6 as stated: after assigning job id "job-a",
a further call of `set_job_id` does change the stored job identity to
"job-b", so the job identity is not immutable after one assignment. -/
theorem C6_counterexample :
    (set_job_id (set_job_id (mkProcessor sampleMeta) "job-a") "job-b").my_job_id
      = "job-b" ∧ ("job-b" : String) ≠ "job-a" :=
  ⟨rfl, by decide⟩

/-- Claim C6, amended: the job identity starts as the sentinel placeholder
string `nothing-yet` after construction and is mutable via the explicit
setter `set_job_id`; each call overwrites the stored value, so a further
call does change the stored job identity (the setter is not once-only). -/
theorem C6_job_id_amended (m : ProcessMetadata) (p : Processor) (j : String) :
    (mkProcessor m).my_job_id = "nothing-yet" ∧ (set_job_id p j).my_job_id = j :=
  ⟨rfl, rfl⟩

/-- Claim C7: the `outputs` selection parameter of `execute` has no influence
on the result: for every request and every two values of the parameter
(including `None`), `execute` behaves identically, and any successful result
carries exactly the two artifacts `weight_table_csv` and `weight_table_rds`. -/
theorem C7_outputs_param_ignored (p : Processor) (cfg : ConfigJSON)
    (invoker : DockerCall → DockerResult) (data : JobRequest)
    (o1 o2 : Option (List String)) :
    execute p cfg invoker data o1 = execute p cfg invoker data o2 ∧
    (responseKeys (execute p cfg invoker data o1) = none ∨
      responseKeys (execute p cfg invoker data o1) =
        some ["weight_table_csv", "weight_table_rds"]) := by
  refine ⟨rfl, ?_⟩
  cases h1 : data.inputFile1_tif with
  | none => simp [responseKeys, execute, h1]
  | some t =>
    cases h2 : data.inputFile2_gpkg with
    | none => simp [responseKeys, execute, h1, h2]
    | some g =>
      cases h3 : data.inputFile3_dbf with
      | none => simp [responseKeys, execute, h1, h2, h3]
      | some d =>
        have hres := execute_result_wellformed p cfg invoker data o1 t g d h1 h2 h3
        by_cases h0 : (invoker (plannedCall p cfg t g d)).returncode = 0
        · rw [if_neg (by simp [h0])] at hres
          right
          simp [responseKeys, hres]
        · rw [if_pos h0] at hres
          left
          simp [responseKeys, hres]

/-- Claim C8: on every execution the download directory and download base URL
consumed from the configuration have their trailing slashes stripped before
any path or URL is built: the stored values never end in `/`, whatever
trailing slashes the configured strings carry. -/
theorem C8_trailing_slash_stripped (p : Processor) (cfg : ConfigJSON)
    (invoker : DockerCall → DockerResult) (data : JobRequest)
    (outputs : Option (List String)) :
    (execute p cfg invoker data outputs).download_dir_used = rstripSlash cfg.download_dir ∧
    (execute p cfg invoker data outputs).download_url_used = rstripSlash cfg.download_url ∧
    lastIsSlash (execute p cfg invoker data outputs).download_dir_used = false ∧
    lastIsSlash (execute p cfg invoker data outputs).download_url_used = false := by
  obtain ⟨hd, hu, -⟩ := execute_trace_base p cfg invoker data outputs
  rw [hd, hu]
  exact ⟨rfl, rfl, lastIsSlash_rstripSlash _, lastIsSlash_rstripSlash _⟩

/-- Claim C9: validation is performed per field, in the fixed order
`inputFile1_tif`, `inputFile2_gpkg`, `inputFile3_dbf`: when more than one
required field is missing, the single raised validation error names the first
missing field in that order and no other required field. -/
theorem C9_first_missing_reported (p : Processor) (cfg : ConfigJSON)
    (invoker : DockerCall → DockerResult) (data : JobRequest)
    (outputs : Option (List String))
    (h : 2 ≤ (requiredFields.filter (fun f => (requestField data f).isNone)).length) :
    ∃ fld msg,
      requiredFields.find? (fun f => (requestField data f).isNone) = some fld ∧
      (execute p cfg invoker data outputs).result = ExecuteOutcome.validationError msg ∧
      strOccurs fld msg = true ∧
      requiredFields.all (fun f2 => f2 == fld || !(strOccurs f2 msg)) = true := by
  cases h1 : data.inputFile1_tif with
  | none =>
    exact ⟨"inputFile1_tif",
      "Missing parameter \"inputFile1_tif\". Please provide a inputFile1_tif.",
      by simp [requiredFields, List.find?, requestField, h1],
      by simp [execute, h1], by decide, by decide⟩
  | some t =>
    cases h2 : data.inputFile2_gpkg with
    | none =>
      exact ⟨"inputFile2_gpkg",
        "Missing parameter \"inputFile2_gpkg\". Please provide a inputFile2_gpkg.",
        by simp [requiredFields, List.find?, requestField, h1, h2],
        by simp [execute, h1, h2], by decide, by decide⟩
    | some g =>
      cases h3 : data.inputFile3_dbf with
      | none =>
        exact ⟨"inputFile3_dbf",
          "Missing parameter \"inputFile3_dbf\". Please provide a inputFile3_dbf.",
          by simp [requiredFields, List.find?, requestField, h1, h2, h3],
          by simp [execute, h1, h2, h3], by decide, by decide⟩
      | some d =>
        rw [show (requiredFields.filter (fun f => (requestField data f).isNone)) = []
          from by simp [requiredFields, requestField, h1, h2, h3]] at h
        exact absurd h (by decide)

/-- Witness for C9 at a concrete request with both `inputFile1_tif` and
`inputFile2_gpkg` missing. -/
theorem C9_first_missing_reported_witness :
    ∃ fld msg,
      requiredFields.find? (fun f => (requestField sampleReqNoTifNoGpkg f).isNone) = some fld ∧
      (execute sampleProcessor sampleCfg sampleInvokerOk sampleReqNoTifNoGpkg none).result =
        ExecuteOutcome.validationError msg ∧
      strOccurs fld msg = true ∧
      requiredFields.all (fun f2 => f2 == fld || !(strOccurs f2 msg)) = true :=
  C9_first_missing_reported sampleProcessor sampleCfg sampleInvokerOk
    sampleReqNoTifNoGpkg none (by decide)

/-- Claim C10: for every request that fails input validation, the output
directory `{download_dir}/out/{process_id}/job_{job_id}` has already been
created (and the stripped configuration values consumed) before the
validation error is raised: the directory-creation side effect occurs on the
validation-error path, so the filesystem state is not unchanged. -/
theorem C10_mkdir_on_validation_path (p : Processor) (cfg : ConfigJSON)
    (invoker : DockerCall → DockerResult) (data : JobRequest)
    (outputs : Option (List String))
    (h : data.inputFile1_tif = none ∨ data.inputFile2_gpkg = none ∨
      data.inputFile3_dbf = none) :
    (∃ msg, (execute p cfg invoker data outputs).result =
      ExecuteOutcome.validationError msg) ∧
    (execute p cfg invoker data outputs).madeDirs =
      [output_dir_for (rstripSlash cfg.download_dir) p.process_id p.my_job_id] ∧
    (execute p cfg invoker data outputs).download_dir_used =
      rstripSlash cfg.download_dir ∧
    (execute p cfg invoker data outputs).madeDirs ≠ [] := by
  obtain ⟨hd, -, hm⟩ := execute_trace_base p cfg invoker data outputs
  refine ⟨?_, hm, hd, by rw [hm]; simp⟩
  cases h1 : data.inputFile1_tif with
  | none =>
    exact ⟨"Missing parameter \"inputFile1_tif\". Please provide a inputFile1_tif.",
      by simp [execute, h1]⟩
  | some t =>
    cases h2 : data.inputFile2_gpkg with
    | none =>
      exact ⟨"Missing parameter \"inputFile2_gpkg\". Please provide a inputFile2_gpkg.",
        by simp [execute, h1, h2]⟩
    | some g =>
      cases h3 : data.inputFile3_dbf with
      | none =>
        exact ⟨"Missing parameter \"inputFile3_dbf\". Please provide a inputFile3_dbf.",
          by simp [execute, h1, h2, h3]⟩
      | some d =>
        rw [h1, h2, h3] at h
        rcases h with h | h | h <;> exact absurd h (by simp)

/-- Witness for C10 at a concrete request with `inputFile1_tif` missing. -/
theorem C10_mkdir_on_validation_path_witness :
    (∃ msg, (execute sampleProcessor sampleCfg sampleInvokerOk sampleReqNoTif none).result =
      ExecuteOutcome.validationError msg) ∧
    (execute sampleProcessor sampleCfg sampleInvokerOk sampleReqNoTif none).madeDirs =
      [output_dir_for (rstripSlash sampleCfg.download_dir)
        sampleProcessor.process_id sampleProcessor.my_job_id] ∧
    (execute sampleProcessor sampleCfg sampleInvokerOk sampleReqNoTif none).download_dir_used =
      rstripSlash sampleCfg.download_dir ∧
    (execute sampleProcessor sampleCfg sampleInvokerOk sampleReqNoTif none).madeDirs ≠ [] :=
  C10_mkdir_on_validation_path sampleProcessor sampleCfg sampleInvokerOk
    sampleReqNoTif none (Or.inl rfl)
